import Mathlib

/-!
Verification of the growable pre-allocated stack of the async-wormhole
repository, a shallow embedding of `stackpp/src/pre_allocated_stack_.rs`
(Unix configuration).

Modelling choices:
* Machine addresses (`*mut u8`) are natural numbers; the reservation is the
  address interval `[guard_top, bottom)`.
* `mmap` is modelled as returning a caller-chosen base address; real `mmap`
  never fails to reserve in the states of interest and always returns a
  page-aligned address, which theorems take as a hypothesis where needed.
* `mprotect` (wrapped by `extend_usable`) fails with `EINVAL` when the start
  address is not page-aligned; that deterministic precondition is modelled.
  Nondeterministic OS failures (`ENOMEM`) are not modelled: the claims are
  about runs in which the OS calls succeed.
* The thread-local cell `CURRENT_STACK` is an explicit `Option` value threaded
  through `give_to_signal` / `take_from_signal` / `signal_handler`.
* A panic is modelled by returning `none` from the signal handler.
-/

namespace Stackpp

/-- Page size in bytes. `page_size()` queries the OS once, caches the result
and asserts it equals 4096, so in every state the program runs in the value
is 4096. -/
def page_size : Nat := 4096

/-- The stack object: three addresses into a single reserved range.
`[top, bottom)` is the usable (committed read/write) area, `[guard_top, top)`
is the guarded (uncommitted) area. -/
structure PreAllocatedStack where
  guard_top : Nat
  top : Nat
  bottom : Nat
deriving DecidableEq, Repr

/-- Error kinds surfaced by `new` and `grow` (Rust uses `std::io::Error`; the
max-size error carries the total size it reports in its message). -/
inductive StackError where
  | maxSizeReached (total_size : Nat)
  | commitFailed
deriving DecidableEq, Repr

namespace PreAllocatedStack

/-- Embedding of `PreAllocatedStack::extend_usable(top, size)`:
`mprotect(top - size, size, PROT_READ | PROT_WRITE)` and, on success, the new
`top` address `top - size`. Linux `mprotect` fails with `EINVAL` unless the
start address is a multiple of the system page size; other failure modes are
not modelled. -/
def extend_usable (top size : Nat) : Option Nat :=
  if (top - size) % page_size = 0 then some (top - size) else none

/-- Embedding of `PreAllocatedStack::new(total_size)`. `base` is the
page-aligned address returned by `mmap` (`Self::alloc`). Four extra pages are
added above the requested size, and the single highest page is committed. -/
def new (base total_size : Nat) : Option PreAllocatedStack :=
  let total_size := total_size + 4 * page_size
  let guard_top := base
  let bottom := guard_top + total_size
  (extend_usable bottom page_size).map
    (fun top => { guard_top := guard_top, top := top, bottom := bottom })

/-- Embedding of `PreAllocatedStack::stack_pointer_inside_guard`. -/
def stack_pointer_inside_guard (s : PreAllocatedStack) (sp : Nat) : Bool :=
  decide (s.guard_top ≤ sp) && decide (sp < s.top)

/-- Embedding of `PreAllocatedStack::grow(&mut self)`: the returned pair is
the `Result` together with the post-state of `self` (unchanged whenever an
error is returned, because the assignment to `self.top` happens after the
`?`). -/
def grow (s : PreAllocatedStack) : Except StackError Unit × PreAllocatedStack :=
  let usable_size := s.bottom - s.top
  let total_size := s.bottom - s.guard_top
  if 2 * usable_size > total_size then
    (Except.error (StackError.maxSizeReached total_size), s)
  else
    match extend_usable s.top usable_size with
    | some newTop => (Except.ok (), { s with top := newTop })
    | none => (Except.error StackError.commitFailed, s)

/-- Embedding of `PreAllocatedStack::give_to_signal(self)`: `Cell::set`
stores the stack in the thread-local slot, discarding previous contents. -/
def give_to_signal (s : PreAllocatedStack)
    (_slot : Option PreAllocatedStack) : Option PreAllocatedStack :=
  some s

/-- Embedding of `PreAllocatedStack::take_from_signal()`: `Cell::take`
returns the slot contents and leaves the slot empty. The first component is
the returned value, the second the slot afterwards. -/
def take_from_signal (slot : Option PreAllocatedStack) :
    Option PreAllocatedStack × Option PreAllocatedStack :=
  (slot, none)

/-- `libc::SIGSEGV` (same value on Linux and macOS). -/
def SIGSEGV : Int := 11

/-- `libc::SIGBUS` on macOS. -/
def SIGBUS_macos : Int := 10

/-- The `expected_guard_page_signal` computed at the top of the Unix
`signal_handler`: `SIGBUS` when `cfg!(target_os = "macos")`, `SIGSEGV`
otherwise. -/
def expected_guard_page_signal (macos : Bool) : Int :=
  if macos then SIGBUS_macos else SIGSEGV

/-- Embedding of the Unix `PreAllocatedStack::signal_handler`. Inputs: the
platform flag, the signal number, `siginfo.si_addr`, and the thread-local
slot. Output `some (handled, slot')` gives the returned boolean and the slot
after the call; `none` models the `panic!` raised when the slot is empty. -/
def signal_handler (macos : Bool) (signum : Int) (si_addr : Nat)
    (slot : Option PreAllocatedStack) :
    Option (Bool × Option PreAllocatedStack) :=
  if signum ≠ expected_guard_page_signal macos then
    some (false, slot)
  else
    match take_from_signal slot with
    | (none, _) => none
    | (some stack, slot1) =>
      if stack.stack_pointer_inside_guard si_addr then
        match grow stack with
        | (Except.ok _, stack1) => some (true, give_to_signal stack1 slot1)
        | (Except.error _, stack1) => some (false, give_to_signal stack1 slot1)
      else
        some (false, give_to_signal stack slot1)

/-- State after `n` calls to `grow()`, keeping the post-state whether or not
the call succeeded (a failing `grow` leaves the state unchanged). -/
def growN : Nat → PreAllocatedStack → PreAllocatedStack
  | 0, s => s
  | n + 1, s => growN n (grow s).2

/-- The post-state of a single `grow()` call when it succeeds, `none` when it
fails. -/
def growOk (s : PreAllocatedStack) : Option PreAllocatedStack :=
  match grow s with
  | (Except.ok _, s1) => some s1
  | (Except.error _, _) => none

/-- State after `k` consecutive successful `grow()` calls; `none` when one of
the first `k` calls fails. -/
def growIter : Nat → PreAllocatedStack → Option PreAllocatedStack
  | 0, s => some s
  | k + 1, s => (growIter k s).bind growOk

/-- The data-model invariant of the spec: ordered addresses, page-aligned
`guard_top` and `top`, and a whole number of pages in the reservation. -/
def Invariant (s : PreAllocatedStack) : Prop :=
  s.guard_top ≤ s.top ∧ s.top ≤ s.bottom ∧
  s.guard_top % page_size = 0 ∧ s.top % page_size = 0 ∧
  (s.bottom - s.guard_top) % page_size = 0

instance (s : PreAllocatedStack) : Decidable (Invariant s) := by
  unfold Invariant; infer_instance

end PreAllocatedStack

namespace PreAllocatedStack

/-- Characterization of a successful `mprotect` extension. -/
lemma extend_usable_eq_some (top size newTop : Nat) :
    extend_usable top size = some newTop ↔
      (top - size) % page_size = 0 ∧ newTop = top - size := by
  unfold extend_usable
  split
  · rename_i hcond
    simp [hcond, eq_comm]
  · rename_i hcond
    simp [hcond]

/-- Elimination lemma for a successful `new`: the three addresses it
produces, and page-alignment of `bottom` (forced by `mprotect`, whose start
address `bottom - page_size` must be page-aligned for the call to succeed). -/
lemma new_some_spec (base req : Nat) (s : PreAllocatedStack)
    (h : new base req = some s) :
    s.guard_top = base ∧ s.bottom = base + (req + 4 * page_size) ∧
    s.top = s.bottom - page_size ∧ s.bottom % page_size = 0 := by
  simp only [new, Option.map_eq_some'] at h
  obtain ⟨tp, hext, hs⟩ := h
  rw [extend_usable_eq_some] at hext
  obtain ⟨halign, htop⟩ := hext
  have hg : base = s.guard_top := congrArg PreAllocatedStack.guard_top hs
  have ht : tp = s.top := congrArg PreAllocatedStack.top hs
  have hb : base + (req + 4 * page_size) = s.bottom :=
    congrArg PreAllocatedStack.bottom hs
  simp only [page_size] at halign htop hb ⊢
  refine ⟨by omega, by omega, by omega, by omega⟩

/-- A failing `grow` leaves the state untouched: both error paths (doubling
refused, `mprotect` failed) return before `self.top` is assigned. -/
lemma grow_error_snd (s : PreAllocatedStack) (e : StackError)
    (h : (grow s).1 = Except.error e) : (grow s).2 = s := by
  simp only [grow] at h ⊢
  by_cases hc : 2 * (s.bottom - s.top) > s.bottom - s.guard_top
  · rw [if_pos hc]
  · rw [if_neg hc] at h ⊢
    cases hext : extend_usable s.top (s.bottom - s.top) with
    | none => rfl
    | some nt =>
      rw [hext] at h
      simp at h

/-- One `grow` call, successful or not, preserves the data-model invariant. -/
lemma grow_snd_invariant (s : PreAllocatedStack) (h : Invariant s) :
    Invariant (grow s).2 := by
  obtain ⟨h1, h2, h3, h4, h5⟩ := h
  simp only [grow]
  by_cases hc : 2 * (s.bottom - s.top) > s.bottom - s.guard_top
  · rw [if_pos hc]
    exact ⟨h1, h2, h3, h4, h5⟩
  · rw [if_neg hc]
    cases hext : extend_usable s.top (s.bottom - s.top) with
    | none =>
      exact ⟨h1, h2, h3, h4, h5⟩
    | some nt =>
      rw [extend_usable_eq_some] at hext
      obtain ⟨halign, hnt⟩ := hext
      show Invariant { s with top := nt }
      have h4' : nt % page_size = 0 := by rw [hnt]; exact halign
      refine ⟨?_, ?_, h3, h4', h5⟩
      · show s.guard_top ≤ nt
        omega
      · show nt ≤ s.bottom
        omega

/-- C5: for every `requested_size` for which the OS calls succeed,
`new(requested_size)` reserves exactly `requested_size + 4 · page_size()`
bytes starting at the `mmap` base and commits the single highest page:
`top = bottom − page_size()`. -/
theorem new_reservation_spec (base req : Nat) (s : PreAllocatedStack)
    (hnew : new base req = some s) :
    s.bottom - s.guard_top = req + 4 * page_size ∧
    s.top = s.bottom - page_size ∧
    s.guard_top = base ∧
    s.bottom = base + req + 4 * page_size := by
  obtain ⟨h1, h2, h3, h4⟩ := new_some_spec base req s hnew
  refine ⟨by omega, h3, h1, by omega⟩

/-- Witness for C5 at `base = 0`, `requested_size = 4096`. -/
theorem new_reservation_spec_witness :
    new 0 4096 = some (PreAllocatedStack.mk 0 16384 20480) ∧
    ((PreAllocatedStack.mk 0 16384 20480).bottom -
        (PreAllocatedStack.mk 0 16384 20480).guard_top = 4096 + 4 * page_size ∧
      (PreAllocatedStack.mk 0 16384 20480).top =
        (PreAllocatedStack.mk 0 16384 20480).bottom - page_size ∧
      (PreAllocatedStack.mk 0 16384 20480).guard_top = 0 ∧
      (PreAllocatedStack.mk 0 16384 20480).bottom = 0 + 4096 + 4 * page_size) :=
  ⟨by decide, new_reservation_spec 0 4096 _ (by decide)⟩

/-- C6: whenever `2·usable > total`, `grow()` returns the max-size error and
leaves `guard_top`, `top` and `bottom` all unchanged. -/
theorem grow_refuses_state_unchanged (s : PreAllocatedStack)
    (h : 2 * (s.bottom - s.top) > s.bottom - s.guard_top) :
    grow s =
      (Except.error (StackError.maxSizeReached (s.bottom - s.guard_top)), s) := by
  unfold grow
  simp [h]

/-- Witness for C6: a fully grown one-page stack refuses to grow. -/
theorem grow_refuses_state_unchanged_witness :
    2 * ((PreAllocatedStack.mk 0 0 4096).bottom -
        (PreAllocatedStack.mk 0 0 4096).top) >
      (PreAllocatedStack.mk 0 0 4096).bottom -
        (PreAllocatedStack.mk 0 0 4096).guard_top ∧
    grow (PreAllocatedStack.mk 0 0 4096) =
      (Except.error (StackError.maxSizeReached 4096),
        PreAllocatedStack.mk 0 0 4096) :=
  ⟨by decide, grow_refuses_state_unchanged _ (by decide)⟩

/-- C7: `stack_pointer_inside_guard(sp)` is true iff
`guard_top ≤ sp < top`; in particular it is false at `sp = top`. -/
theorem stack_pointer_inside_guard_iff (s : PreAllocatedStack) (sp : Nat) :
    (s.stack_pointer_inside_guard sp = true ↔
      s.guard_top ≤ sp ∧ sp < s.top) ∧
    s.stack_pointer_inside_guard s.top = false := by
  constructor
  · simp [stack_pointer_inside_guard]
  · simp [stack_pointer_inside_guard]

/-- C8: `give_to_signal` then `take_from_signal` on the same thread-local
slot returns exactly the stack that was given (hence with the same
`guard_top`, `top` and `bottom`) and leaves the slot empty. -/
theorem give_take_round_trip (s : PreAllocatedStack)
    (slot : Option PreAllocatedStack) :
    (take_from_signal (give_to_signal s slot)).1 = some s ∧
    (take_from_signal (give_to_signal s slot)).2 = none :=
  ⟨rfl, rfl⟩

/-- One successful `grow` on a state with `usable = K` and a page-aligned
`bottom` doubles the usable region: `top` drops from `bottom - K` to
`bottom - 2·K`. -/
lemma growOk_step (g b K : Nat) (hb : b % page_size = 0)
    (hK : K % page_size = 0) (hKb : 2 * K ≤ b - g) :
    growOk (PreAllocatedStack.mk g (b - K) b) =
      some (PreAllocatedStack.mk g (b - 2 * K) b) := by
  have hcond : ¬ 2 * (b - (b - K)) > b - g := by omega
  have hext : extend_usable (b - K) (b - (b - K)) =
      some (b - K - (b - (b - K))) := by
    rw [extend_usable_eq_some]
    refine ⟨?_, rfl⟩
    simp only [page_size] at *
    omega
  unfold growOk
  simp only [grow]
  rw [if_neg hcond, hext]
  simp only [Option.some.injEq, PreAllocatedStack.mk.injEq]
  refine ⟨trivial, by omega, trivial⟩

/-- On a fresh stack (one usable page, page-aligned `bottom`), `k`
successful `grow` calls leave `top` at `bottom - 2^k · page_size`, provided
`2^k` pages fit in the reservation. -/
lemma growIter_fresh_some (s : PreAllocatedStack)
    (htop : s.top = s.bottom - page_size) (hb : s.bottom % page_size = 0)
    (_hgb : s.guard_top + page_size ≤ s.bottom) (k : Nat)
    (hk : 2 ^ k * page_size ≤ s.bottom - s.guard_top) :
    growIter k s =
      some (PreAllocatedStack.mk s.guard_top
        (s.bottom - 2 ^ k * page_size) s.bottom) := by
  revert hk
  induction k with
  | zero =>
    intro hk
    simp only [growIter, Option.some.injEq, pow_zero, one_mul]
    rw [← htop]
  | succ k ih =>
    intro hk
    have hpow : (2 : Nat) ^ (k + 1) * page_size = 2 * (2 ^ k * page_size) := by
      ring
    have hk' : 2 ^ k * page_size ≤ s.bottom - s.guard_top := by omega
    show (growIter k s).bind growOk = _
    rw [ih hk']
    show growOk (PreAllocatedStack.mk s.guard_top
        (s.bottom - 2 ^ k * page_size) s.bottom) = _
    rw [growOk_step s.guard_top s.bottom (2 ^ k * page_size) hb
      (Nat.mul_mod_left _ _) (by omega)]
    simp only [Option.some.injEq, PreAllocatedStack.mk.injEq]
    refine ⟨trivial, by omega, trivial⟩

/-- On a fresh stack, once `2^k` pages exceed the reservation the `k`-th
`grow` fails, so the iterated run returns `none`. -/
lemma growIter_fresh_none (s : PreAllocatedStack)
    (htop : s.top = s.bottom - page_size) (hb : s.bottom % page_size = 0)
    (hgb : s.guard_top + page_size ≤ s.bottom) (k : Nat)
    (hk : s.bottom - s.guard_top < 2 ^ k * page_size) :
    growIter k s = none := by
  revert hk
  induction k with
  | zero =>
    intro hk
    exfalso
    simp only [pow_zero, one_mul] at hk
    omega
  | succ k ih =>
    intro hk
    have hpow : (2 : Nat) ^ (k + 1) * page_size = 2 * (2 ^ k * page_size) := by
      ring
    by_cases hsucc : 2 ^ k * page_size ≤ s.bottom - s.guard_top
    · have hsome := growIter_fresh_some s htop hb hgb k hsucc
      show (growIter k s).bind growOk = none
      rw [hsome]
      show growOk (PreAllocatedStack.mk s.guard_top
          (s.bottom - 2 ^ k * page_size) s.bottom) = none
      unfold growOk
      simp only [grow]
      have hgt : 2 * (s.bottom - (s.bottom - 2 ^ k * page_size)) >
          s.bottom - s.guard_top := by omega
      rw [if_pos hgt]
    · have hnone := ih (by omega)
      show (growIter k s).bind growOk = none
      rw [hnone]
      rfl

/-- C1: for every stack satisfying the data-model invariant, `grow()`
refuses with `MaxSizeReached(total)` exactly when `2·usable > total`
(`usable = bottom − top`, `total = bottom − guard_top`); otherwise it
commits `usable` further bytes below `top`, sets `top ← top − usable`, and
so exactly doubles the usable region. -/
theorem grow_doubling_policy (s : PreAllocatedStack) (hinv : Invariant s) :
    ((grow s).1 =
        Except.error (StackError.maxSizeReached (s.bottom - s.guard_top)) ↔
      2 * (s.bottom - s.top) > s.bottom - s.guard_top) ∧
    (2 * (s.bottom - s.top) ≤ s.bottom - s.guard_top →
      grow s = (Except.ok (), { s with top := s.top - (s.bottom - s.top) }) ∧
      (grow s).2.bottom - (grow s).2.top = 2 * (s.bottom - s.top)) := by
  obtain ⟨h1, h2, h3, h4, h5⟩ := hinv
  by_cases hc : 2 * (s.bottom - s.top) > s.bottom - s.guard_top
  · constructor
    · simp only [grow]
      rw [if_pos hc]
      simp [hc]
    · intro hle
      omega
  · have hb : s.bottom % page_size = 0 := by
      simp only [page_size] at h3 h5 ⊢
      omega
    have halign : (s.top - (s.bottom - s.top)) % page_size = 0 := by
      simp only [page_size] at h3 h4 h5 hb ⊢
      omega
    have hext : extend_usable s.top (s.bottom - s.top) =
        some (s.top - (s.bottom - s.top)) := by
      rw [extend_usable_eq_some]
      exact ⟨halign, rfl⟩
    have hgrow : grow s =
        (Except.ok (), { s with top := s.top - (s.bottom - s.top) }) := by
      simp only [grow]
      rw [if_neg hc, hext]
    constructor
    · rw [hgrow]
      simp only [gt_iff_lt]
      constructor
      · intro h
        exact absurd h (by simp)
      · intro h
        omega
    · intro hle
      refine ⟨hgrow, ?_⟩
      rw [hgrow]
      show s.bottom - (s.top - (s.bottom - s.top)) = 2 * (s.bottom - s.top)
      omega

/-- Witness for C1: a stack with one usable page out of five total pages
satisfies the invariant, and its successful grow doubles the usable area. -/
theorem grow_doubling_policy_witness :
    Invariant (PreAllocatedStack.mk 0 16384 20480) ∧
    (((grow (PreAllocatedStack.mk 0 16384 20480)).1 =
        Except.error (StackError.maxSizeReached
          ((PreAllocatedStack.mk 0 16384 20480).bottom -
            (PreAllocatedStack.mk 0 16384 20480).guard_top)) ↔
      2 * ((PreAllocatedStack.mk 0 16384 20480).bottom -
          (PreAllocatedStack.mk 0 16384 20480).top) >
        (PreAllocatedStack.mk 0 16384 20480).bottom -
          (PreAllocatedStack.mk 0 16384 20480).guard_top) ∧
    (2 * ((PreAllocatedStack.mk 0 16384 20480).bottom -
          (PreAllocatedStack.mk 0 16384 20480).top) ≤
        (PreAllocatedStack.mk 0 16384 20480).bottom -
          (PreAllocatedStack.mk 0 16384 20480).guard_top →
      grow (PreAllocatedStack.mk 0 16384 20480) =
        (Except.ok (),
          { PreAllocatedStack.mk 0 16384 20480 with
              top := (PreAllocatedStack.mk 0 16384 20480).top -
                ((PreAllocatedStack.mk 0 16384 20480).bottom -
                  (PreAllocatedStack.mk 0 16384 20480).top) }) ∧
      (grow (PreAllocatedStack.mk 0 16384 20480)).2.bottom -
          (grow (PreAllocatedStack.mk 0 16384 20480)).2.top =
        2 * ((PreAllocatedStack.mk 0 16384 20480).bottom -
          (PreAllocatedStack.mk 0 16384 20480).top))) :=
  ⟨by decide, grow_doubling_policy (PreAllocatedStack.mk 0 16384 20480)
    (by decide)⟩

/-- C3: every stack produced by a successful `new` at a page-aligned `mmap`
base keeps the invariant `guard_top ≤ top ≤ bottom`, with `guard_top` and
`top` page-aligned and a whole number of pages reserved, across any sequence
of `grow()` calls, successful or failing. -/
theorem invariant_holds (base req : Nat) (hbase : base % page_size = 0)
    (s : PreAllocatedStack) (hnew : new base req = some s) (n : Nat) :
    Invariant (growN n s) := by
  obtain ⟨h1, h2, h3, h4⟩ := new_some_spec base req s hnew
  have hinv : Invariant s := by
    refine ⟨?_, ?_, ?_, ?_, ?_⟩ <;>
      · simp only [page_size] at *
        omega
  clear h1 h2 h3 h4 hbase hnew
  induction n generalizing s with
  | zero => exact hinv
  | succ n ih =>
    show Invariant (growN n (grow s).2)
    exact ih (grow s).2 (grow_snd_invariant s hinv)

/-- Witness for C3 at `base = 4096`, `requested_size = 0`, three calls. -/
theorem invariant_holds_witness :
    (4096 : Nat) % page_size = 0 ∧
    new 4096 0 = some (PreAllocatedStack.mk 4096 16384 20480) ∧
    Invariant (growN 3 (PreAllocatedStack.mk 4096 16384 20480)) :=
  ⟨by decide, by decide,
    invariant_holds 4096 0 (by decide)
      (PreAllocatedStack.mk 4096 16384 20480) (by decide) 3⟩

/-- C9: when the signal number is the platform's guard-page signal but the
thread-local slot is empty, the Unix signal handler panics (modelled by
`none`) instead of returning a value. -/
theorem signal_handler_empty_slot_panics (macos : Bool) (si_addr : Nat) :
    signal_handler macos (expected_guard_page_signal macos) si_addr none =
      none := by
  simp [signal_handler, take_from_signal]

/-- C2: on a fresh stack from `new`, after `k` successful `grow()` calls the
usable size `bottom − top` is exactly `2^k · page_size`: the usable region
runs through the sizes `1, 2, 4, …` pages. -/
theorem usable_size_doubles (base req k : Nat) (s t : PreAllocatedStack)
    (hnew : new base req = some s) (hiter : growIter k s = some t) :
    t.bottom - t.top = 2 ^ k * page_size := by
  obtain ⟨h1, h2, h3, h4⟩ := new_some_spec base req s hnew
  have hgb : s.guard_top + page_size ≤ s.bottom := by
    simp only [page_size] at h2 ⊢
    omega
  by_cases hk : 2 ^ k * page_size ≤ s.bottom - s.guard_top
  · have hsome := growIter_fresh_some s h3 h4 hgb k hk
    rw [hsome] at hiter
    simp only [Option.some.injEq] at hiter
    rw [← hiter]
    show s.bottom - (s.bottom - 2 ^ k * page_size) = 2 ^ k * page_size
    omega
  · have hnone := growIter_fresh_none s h3 h4 hgb k (by omega)
    rw [hnone] at hiter
    exact absurd hiter (by simp)

/-- Witness for C2: two successful grows on a stack of one page plus the
four guard pages yield four usable pages. -/
theorem usable_size_doubles_witness :
    new 0 4096 = some (PreAllocatedStack.mk 0 16384 20480) ∧
    growIter 2 (PreAllocatedStack.mk 0 16384 20480) =
      some (PreAllocatedStack.mk 0 4096 20480) ∧
    (PreAllocatedStack.mk 0 4096 20480).bottom -
      (PreAllocatedStack.mk 0 4096 20480).top = 2 ^ 2 * page_size :=
  ⟨by decide, by decide,
    usable_size_doubles 0 4096 2 (PreAllocatedStack.mk 0 16384 20480)
      (PreAllocatedStack.mk 0 4096 20480) (by decide) (by decide)⟩

/-- C10: on a fresh stack from `new(requested_size)` exactly `m` `grow()`
calls can ever succeed, where `2^m·page_size ≤ requested_size + 4·page_size
< 2^(m+1)·page_size`; the maximal usable size is `2^m` pages, strictly below
the full reservation when the reservation is not a power-of-two number of
pages; and the maximal usable size can even fall short of `requested_size`. -/
theorem grow_count_exact (base req m : Nat) (s : PreAllocatedStack)
    (hnew : new base req = some s)
    (hlo : 2 ^ m * page_size ≤ req + 4 * page_size)
    (hhi : req + 4 * page_size < 2 ^ (m + 1) * page_size) :
    (∃ t, growIter m s = some t ∧
      t.bottom - t.top = 2 ^ m * page_size ∧
      (req + 4 * page_size ≠ 2 ^ m * page_size →
        t.bottom - t.top < req + 4 * page_size)) ∧
    growIter (m + 1) s = none ∧
    (∃ base2 req2 s2 t2, new base2 req2 = some s2 ∧
      growIter 3 s2 = some t2 ∧ growIter 4 s2 = none ∧
      t2.bottom - t2.top < req2) := by
  obtain ⟨h1, h2, h3, h4⟩ := new_some_spec base req s hnew
  have hgb : s.guard_top + page_size ≤ s.bottom := by
    simp only [page_size] at h2 ⊢
    omega
  have htotal : s.bottom - s.guard_top = req + 4 * page_size := by omega
  refine ⟨?_, ?_, ?_⟩
  · refine ⟨_, growIter_fresh_some s h3 h4 hgb m (by omega), ?_, ?_⟩
    · show s.bottom - (s.bottom - 2 ^ m * page_size) = 2 ^ m * page_size
      omega
    · intro hne
      show s.bottom - (s.bottom - 2 ^ m * page_size) < req + 4 * page_size
      omega
  · exact growIter_fresh_none s h3 h4 hgb (m + 1) (by omega)
  · exact ⟨0, 36864, PreAllocatedStack.mk 0 49152 53248,
      PreAllocatedStack.mk 0 20480 53248, by decide, by decide, by decide,
      by decide⟩

/-- Witness for C10 at `base = 0`, `requested_size = 4096`, `m = 2`. -/
theorem grow_count_exact_witness :
    new 0 4096 = some (PreAllocatedStack.mk 0 16384 20480) ∧
    2 ^ 2 * page_size ≤ 4096 + 4 * page_size ∧
    4096 + 4 * page_size < 2 ^ (2 + 1) * page_size ∧
    ((∃ t, growIter 2 (PreAllocatedStack.mk 0 16384 20480) = some t ∧
      t.bottom - t.top = 2 ^ 2 * page_size ∧
      (4096 + 4 * page_size ≠ 2 ^ 2 * page_size →
        t.bottom - t.top < 4096 + 4 * page_size)) ∧
    growIter (2 + 1) (PreAllocatedStack.mk 0 16384 20480) = none ∧
    (∃ base2 req2 s2 t2, new base2 req2 = some s2 ∧
      growIter 3 s2 = some t2 ∧ growIter 4 s2 = none ∧
      t2.bottom - t2.top < req2)) :=
  ⟨by decide, by decide, by decide,
    grow_count_exact 0 4096 2 (PreAllocatedStack.mk 0 16384 20480)
      (by decide) (by decide) (by decide)⟩

/-- C4: for the Unix signal handler invoked with the platform's guard-page
signal and a non-empty slot: a fault address inside `[guard_top, top)` with
a successful `grow` is handled (`true`) with the grown stack returned to the
slot; a failed `grow` is not handled (`false`) with the stack returned
unchanged; a fault address outside `[guard_top, top)` is not handled
(`false`) with the stack returned unchanged. -/
theorem signal_handler_guard_spec (macos : Bool) (si_addr : Nat)
    (stack : PreAllocatedStack) :
    (stack.stack_pointer_inside_guard si_addr = true →
      (grow stack).1 = Except.ok () →
        signal_handler macos (expected_guard_page_signal macos) si_addr
          (some stack) = some (true, some (grow stack).2)) ∧
    (stack.stack_pointer_inside_guard si_addr = true →
      ∀ e, (grow stack).1 = Except.error e →
        signal_handler macos (expected_guard_page_signal macos) si_addr
          (some stack) = some (false, some stack)) ∧
    (stack.stack_pointer_inside_guard si_addr = false →
      signal_handler macos (expected_guard_page_signal macos) si_addr
        (some stack) = some (false, some stack)) := by
  have hne : ¬ (expected_guard_page_signal macos ≠
      expected_guard_page_signal macos) := fun h => h rfl
  refine ⟨?_, ?_, ?_⟩
  · intro hin hok
    unfold signal_handler
    rw [if_neg hne]
    simp only [take_from_signal]
    rw [if_pos hin]
    have hpair : grow stack = ((grow stack).1, (grow stack).2) := rfl
    have hgrow : grow stack = (Except.ok (), (grow stack).2) := by
      conv_lhs => rw [hpair]
      rw [hok]
    rw [hgrow]
    rfl
  · intro hin e herr
    unfold signal_handler
    rw [if_neg hne]
    simp only [take_from_signal]
    rw [if_pos hin]
    have hsnd := grow_error_snd stack e herr
    have hpair : grow stack = ((grow stack).1, (grow stack).2) := rfl
    have hgrow : grow stack = (Except.error e, stack) := by
      conv_lhs => rw [hpair]
      rw [herr, hsnd]
    rw [hgrow]
    rfl
  · intro hout
    unfold signal_handler
    rw [if_neg hne]
    simp only [take_from_signal]
    rw [if_neg (by simp [hout])]
    rfl

/-- Witness for C4: an in-guard fault on a growable stack is handled and the
grown stack is put back into the slot. -/
theorem signal_handler_guard_spec_witness :
    (PreAllocatedStack.mk 0 16384 20480).stack_pointer_inside_guard 5000 =
      true ∧
    (grow (PreAllocatedStack.mk 0 16384 20480)).1 = Except.ok () ∧
    signal_handler false (expected_guard_page_signal false) 5000
      (some (PreAllocatedStack.mk 0 16384 20480)) =
      some (true, some (grow (PreAllocatedStack.mk 0 16384 20480)).2) :=
  ⟨by decide, rfl,
    (signal_handler_guard_spec false 5000
      (PreAllocatedStack.mk 0 16384 20480)).1 (by decide) rfl⟩

end PreAllocatedStack

end Stackpp
